import Mathlib

/-!
Verification development for the wikiadminsupport repository
(`generate_game_overview.py`, `2createwikicode.py`, `generate_stats_for_wiki.py`).

The Python sources are shallowly embedded below.  JSON documents are modelled
as structures whose `Option` fields record presence/absence of the raw keys;
each `.get(key, default)` of the source is rendered at the exact place it
occurs via `Option.getD`.  Python `dict`s built incrementally are modelled as
insertion-ordered association lists; `defaultdict(int)` counters over open
string keys are modelled as total functions `String → Nat`.  `datetime`
values are modelled by a calendar structure (`DateTime`) together with their
offset on the proleptic-Gregorian timeline (`toSeconds`), which is exactly
the quantity Python's `datetime` subtraction and comparison observe.
Exact rational arithmetic (`ℚ`) stands in for Python floats; every float
produced by this code base is a quotient of machine integers, which the
floats of the source represent exactly at the magnitudes involved.
-/

/-- Association-list lookup; models `dict.get` / `key in dict` on a Python
dict represented in insertion order. -/
def lookupA {K V : Type} [DecidableEq K] (k : K) : List (K × V) → Option V
  | [] => none
  | (k', v') :: rest => if k' = k then some v' else lookupA k rest

/-- Association-list store `d[k] = v`: replaces in place when the key exists,
otherwise appends (Python dicts keep insertion order). -/
def updateA {K V : Type} [DecidableEq K] (k : K) (v : V) : List (K × V) → List (K × V)
  | [] => [(k, v)]
  | (k', v') :: rest => if k' = k then (k', v) :: rest else (k', v') :: updateA k v rest

/-- A `defaultdict(int)`-style `d[k] += v` on an association list. -/
def addA {K : Type} [DecidableEq K] (k : K) (v : Int) : List (K × Int) → List (K × Int)
  | [] => [(k, v)]
  | (k', v') :: rest => if k' = k then (k', v' + v) :: rest else (k', v') :: addA k v rest

/-- A `defaultdict(list)`-style `d[k].append(x)` on an association list. -/
def pushA {K A : Type} [DecidableEq K] (k : K) (x : A) : List (K × List A) → List (K × List A)
  | [] => [(k, [x])]
  | (k', v') :: rest => if k' = k then (k', v' ++ [x]) :: rest else (k', v') :: pushA k x rest

/-- Python `str.lower()` (ASCII range, which is all this repository feeds it). -/
def lowerStr (s : String) : String := String.mk (s.toList.map Char.toLower)

/-- ASCII whitespace recognizer for `str.strip()`. -/
def isWs (c : Char) : Bool := c = ' ' ∨ c = '\t' ∨ c = '\n' ∨ c = '\r'

/-- Python `str.strip()`. -/
def stripStr (s : String) : String :=
  String.mk (((s.toList.dropWhile isWs).reverse.dropWhile isWs).reverse)

/-- Function `normalize` from `2createwikicode.py` (lines 15–17):
`str(name).lower().strip()`. -/
def normalizeStr (s : String) : String := stripStr (lowerStr s)

/-- Stable insertion step for sorting: insert before the first strictly
greater element, which together with a left fold reproduces Python's stable
`sort`/`sorted`. -/
def insertLe {A : Type} (lt : A → A → Bool) (x : A) : List A → List A
  | [] => [x]
  | y :: ys => if lt x y then x :: y :: ys else y :: insertLe lt x ys

/-- Stable sort (Python `sorted`) realized as repeated ordered insertion. -/
def sortStable {A : Type} (lt : A → A → Bool) (l : List A) : List A :=
  l.foldl (fun acc x => insertLe lt x acc) []

/-- Code-point lexicographic comparison on character lists, the order of
Python `str <` (and of Lean's `String <`). -/
def charListLt : List Char → List Char → Bool
  | [], [] => false
  | [], _ :: _ => true
  | _ :: _, [] => false
  | a :: as, b :: bs => if a < b then true else if b < a then false else charListLt as bs

/-- Python `str <`. -/
def strLt (a b : String) : Bool := charListLt a.toList b.toList

/-- Python `sorted` on strings (code-point lexicographic, as `str <`). -/
def sortStrings (l : List String) : List String := sortStable strLt l

/-- A `datetime.datetime` value: proleptic Gregorian calendar fields. -/
structure DateTime where
  year : Nat
  month : Nat
  day : Nat
  hour : Nat
  minute : Nat
  second : Nat
deriving DecidableEq

/-- Constant `datetime.min` = 0001-01-01 00:00:00, the minimum representable time. -/
def dtMin : DateTime := ⟨1, 1, 1, 0, 0, 0⟩

/-- Gregorian leap-year test, as in Python's `calendar`/`datetime`. -/
def isLeapYear (y : Nat) : Bool := y % 4 = 0 ∧ (y % 100 ≠ 0 ∨ y % 400 = 0)

/-- Length of a month, as validated by `datetime`. -/
def daysInMonth (y m : Nat) : Nat :=
  if m = 2 then (if isLeapYear y then 29 else 28)
  else if m = 4 ∨ m = 6 ∨ m = 9 ∨ m = 11 then 30
  else 31

/-- Days on the timeline before year `y` (year 1 starts at day 0). -/
def daysBeforeYear (y : Nat) : Nat :=
  let p := y - 1
  365 * p + p / 4 - p / 100 + p / 400

/-- Days before month `m` within year `y`. -/
def daysBeforeMonth (y m : Nat) : Nat :=
  ((List.range (m - 1)).map (fun i => daysInMonth y (i + 1))).sum

/-- Seconds since 0001-01-01 00:00:00; `datetime` comparison and subtraction
observe exactly this timeline offset. -/
def toSeconds (dt : DateTime) : Nat :=
  (((daysBeforeYear dt.year + daysBeforeMonth dt.year dt.month + (dt.day - 1)) * 24
      + dt.hour) * 60 + dt.minute) * 60 + dt.second

/-- Value `(b - a).total_seconds() / 60`: signed gap in minutes between two
datetimes, as computed by both grouping loops. -/
def gapMinutes (a b : DateTime) : ℚ :=
  (((toSeconds b : Int) - (toSeconds a : Int) : Int) : ℚ) / 60

/-- Numeric value of an ASCII digit. -/
def digitVal (c : Char) : Nat := c.toNat - '0'.toNat

/-- ASCII digit recognizer. -/
def isDigitCh (c : Char) : Bool := '0' ≤ c ∧ c ≤ '9'

/-- Function `datetime.strptime(s, "%Y-%m-%d %H:%M:%S")`, modelled for zero-padded
fields: succeeds exactly on 19-character strings `YYYY-MM-DD HH:MM:SS` whose
fields form a valid calendar date/time (`strptime` rejects out-of-range
fields such as month 13 or Feb 30, and `datetime` has no year 0). -/
def parseDT (s : String) : Option DateTime :=
  let cs := s.toList
  if cs.length = 19 then
    let c := fun (i : Nat) => cs.getD i ' '
    if (c 4 = '-' ∧ c 7 = '-' ∧ c 10 = ' ' ∧ c 13 = ':' ∧ c 16 = ':')
        ∧ ([c 0, c 1, c 2, c 3, c 5, c 6, c 8, c 9,
            c 11, c 12, c 14, c 15, c 17, c 18].all isDigitCh = true) then
      let y := digitVal (c 0) * 1000 + digitVal (c 1) * 100 + digitVal (c 2) * 10 + digitVal (c 3)
      let mo := digitVal (c 5) * 10 + digitVal (c 6)
      let dy := digitVal (c 8) * 10 + digitVal (c 9)
      let hh := digitVal (c 11) * 10 + digitVal (c 12)
      let mi := digitVal (c 14) * 10 + digitVal (c 15)
      let se := digitVal (c 17) * 10 + digitVal (c 18)
      if 1 ≤ y ∧ 1 ≤ mo ∧ mo ≤ 12 ∧ 1 ≤ dy ∧ dy ≤ daysInMonth y mo
          ∧ hh ≤ 23 ∧ mi ≤ 59 ∧ se ≤ 59 then
        some ⟨y, mo, dy, hh, mi, se⟩
      else none
    else none
  else none

/-- The part of a string before its first `+` (Python `s.split("+")[0]`). -/
def beforePlusSign (s : String) : String := String.mk (s.toList.takeWhile (fun c => c ≠ '+'))

/-- Whether the string contains a `+` (Python `"+" in s`). -/
def hasPlusSign (s : String) : Bool := s.toList.any (fun c => c = '+')

/-- Function `parse_date` from `2createwikicode.py` (lines 19–27): strip everything
from the first `+` on (then `strip()`), run `strptime`, and fall back to
`datetime.min` on any failure. -/
def parse_date (date_str : String) : DateTime :=
  let clean := if hasPlusSign date_str then stripStr (beforePlusSign date_str) else date_str
  (parseDT clean).getD dtMin

/-- Python `s[:19]` (truncate to the first 19 characters). -/
def take19 (s : String) : String := String.mk (s.toList.take 19)

/-- The date handling of `parse_games` in `generate_game_overview.py`
(lines 45–52): `data.get("date", "1970-01-01 00:00:00")`, truncate to 19
characters, `strptime`, and fall back to `datetime.min` on failure. -/
def ovParseDate (dateField : Option String) : DateTime :=
  let date_str := dateField.getD "1970-01-01 00:00:00"
  let clean_date_str := take19 date_str
  (parseDT clean_date_str).getD dtMin

/-- One entry of a raw document's `teams` list: either a plain (non-dict)
value rendered as a string, or a dict with optional `name` and `score` keys. -/
inductive TeamEntry where
  | str (s : String)
  | dict (name : Option String) (score : Option Int)
deriving DecidableEq

/-- One entry of a raw document's `players` list, with exactly the keys the
two match scripts read.  `Option` marks presence of the raw JSON key; the
numeric payloads are the values the scripts extract (`frags` at the player
root for `2createwikicode.py`, `stats.frags` for
`generate_game_overview.py`). -/
structure RawPlayer where
  name : Option String
  team : Option String
  frags : Option Int
  statsFrags : Option Int
deriving DecidableEq

/-- A raw per-game JSON document as read by the two match scripts. -/
structure RawDoc where
  date : Option String
  mapName : Option String
  teams : Option (List TeamEntry)
  players : Option (List RawPlayer)
  server : Option String
  hostname : Option String
deriving DecidableEq

namespace Ov

/- Embedding of `generate_game_overview.py`. -/

/-- Constant `SERIES_GAP_THRESHOLD_MINUTES = 90` (line 10). -/
def SERIES_GAP_THRESHOLD_MINUTES : ℚ := 90

/-- The per-player step of the `get_team_scores` loop (lines 17–27):
skip spectators, then `teams[t_name] += frags` and
`team_rosters[t_name].append({name, frags})`. -/
def gts_step (acc : List (String × Int) × List (String × List (String × Int)))
    (p : RawPlayer) : List (String × Int) × List (String × List (String × Int)) :=
  let t_name := p.team.getD "Unknown"
  if (["spec", "spectator", ""] : List String).contains (lowerStr t_name) then acc
  else
    let frags := p.statsFrags.getD 0
    (addA t_name frags acc.1, pushA t_name (p.name.getD "Unknown", frags) acc.2)

/-- Function `get_team_scores` (lines 12–29): total `stats.frags` per raw team name
plus per-team rosters, both as insertion-ordered dicts. -/
def get_team_scores (players : List RawPlayer) :
    List (String × Int) × List (String × List (String × Int)) :=
  players.foldl gts_step ([], [])

/-- A processed game as appended by `parse_games` (lines 64–75). -/
structure Game where
  date_obj : DateTime
  team1 : String
  team2 : String
  server : String
  mapName : String
  score_t1 : Int
  score_t2 : Int
  roster_t1 : List (String × Int)
  roster_t2 : List (String × Int)
  file : String
deriving DecidableEq

/-- The per-document body of `parse_games` (lines 45–75): parse the date,
resolve team scores, reject anything but exactly two scoring teams, sort the
two raw team names, and build the processed game object. -/
def parseGame (data : RawDoc) (file : String) : Option Game :=
  let date_obj := ovParseDate data.date
  let tr := get_team_scores (data.players.getD [])
  let teams_score := tr.1
  let rosters := tr.2
  if teams_score.length = 2 then
    match sortStrings (teams_score.map Prod.fst) with
    | [t1, t2] =>
      some { date_obj := date_obj
             team1 := t1
             team2 := t2
             server := data.server.getD (data.hostname.getD "Unknown")
             mapName := data.mapName.getD "unknown"
             score_t1 := (lookupA t1 teams_score).getD 0
             score_t2 := (lookupA t2 teams_score).getD 0
             roster_t1 := (lookupA t1 rosters).getD []
             roster_t2 := (lookupA t2 rosters).getD []
             file := file }
    | _ => none
  else none

/-- The match dict as built by `create_new_match` (lines 120–128) and mutated
by the grouping loop. -/
structure Match where
  team1 : String
  team2 : String
  start_time : DateTime
  last_game_time : DateTime
  server : String
  maps : List Game
deriving DecidableEq

/-- Function `create_new_match` (lines 120–128). -/
def create_new_match (first_game : Game) : Match :=
  { team1 := first_game.team1
    team2 := first_game.team2
    start_time := first_game.date_obj
    last_game_time := first_game.date_obj
    server := first_game.server
    maps := [first_game] }

/-- The loop body of `group_into_matches` (lines 92–112).  State: the
insertion-ordered `active_series` dict keyed by `(team1, team2)` and the
emitted `matches` list. -/
def group_step (st : List ((String × String) × Match) × List Match) (game : Game) :
    List ((String × String) × Match) × List Match :=
  let pair_key := (game.team1, game.team2)
  match lookupA pair_key st.1 with
  | some current_match =>
    let gap_minutes := gapMinutes current_match.last_game_time game.date_obj
    if gap_minutes > SERIES_GAP_THRESHOLD_MINUTES then
      (updateA pair_key (create_new_match game) st.1, st.2 ++ [current_match])
    else
      (updateA pair_key
        { current_match with
          maps := current_match.maps ++ [game]
          last_game_time := game.date_obj
          server := game.server } st.1, st.2)
  | none => (updateA pair_key (create_new_match game) st.1, st.2)

/-- Function `group_into_matches` (lines 85–118): fold the loop body over the sorted
games, flush every still-active series in dict order, and stable-sort the
result by `start_time`. -/
def group_into_matches (sorted_games : List Game) : List Match :=
  let st := sorted_games.foldl group_step ([], [])
  sortStable (fun a b => toSeconds a.start_time < toSeconds b.start_time)
    (st.2 ++ st.1.map Prod.snd)

end Ov

namespace Wiki

/- Embedding of `2createwikicode.py`. -/

/-- Constant `SERIES_GAP_MINUTES = 90` (line 13). -/
def SERIES_GAP_MINUTES : ℚ := 90

/-- Team-name extraction of `get_team_score`, line 34:
`team.get("name", "") if isinstance(team, dict) else str(team)`. -/
def entryName : TeamEntry → String
  | .str s => s
  | .dict n _ => n.getD ""

/-- The explicit-score loop of `get_team_score` (lines 32–37): return the
score of the first `teams` entry that is a dict whose normalized name matches
and that carries a `score` key; otherwise fall through. -/
def scanTeams (target : String) : List TeamEntry → Option Int
  | [] => none
  | t :: ts =>
    match t with
    | .dict n sc =>
      if normalizeStr (n.getD "") = target then
        match sc with
        | some v => some v
        | none => scanTeams target ts
      else scanTeams target ts
    | .str _ => scanTeams target ts  -- a matching non-dict entry never returns

/-- The fallback loop of `get_team_score` (lines 39–45): sum the root-level
`frags` of players whose normalized team matches, tracking whether any did. -/
def sumFragsLoop (target : String) (ps : List RawPlayer) : Int × Bool :=
  ps.foldl
    (fun acc p =>
      if normalizeStr (p.team.getD "") = target then (acc.1 + p.frags.getD 0, true) else acc)
    (0, false)

/-- Function `get_team_score` (lines 29–46): explicit per-team score first, else the
summed player frags (`total if found else 0`). -/
def get_team_score (json_data : RawDoc) (team_name : String) : Int :=
  let target := normalizeStr team_name
  let explicit : Option Int :=
    match json_data.teams with
    | some ts => scanTeams target ts
    | none => none
  match explicit with
  | some v => v
  | none =>
    let r := sumFragsLoop target (json_data.players.getD [])
    if r.2 then r.1 else 0

/-- Raw-team extraction of `load_match_metadata` (lines 54–58): the `teams`
list if present (dict entries contribute their `name`), else the distinct
`team` fields of the players (`list(set(...))`, modelled as first-occurrence
dedup — the subsequent sort makes the set order immaterial). -/
def rawTeams (data : RawDoc) : List String :=
  match data.teams with
  | some ts => ts.map (fun t =>
      match t with
      | .dict n _ => n.getD ""  -- `t.get("name", str(t))`; display-only default
      | .str s => s)
  | none =>
    match data.players with
    | some ps => (ps.map (fun p => p.team.getD "Unknown")).dedup
    | none => []

/-- A loaded record as returned by `load_match_metadata` (lines 63–68). -/
structure Meta where
  date : DateTime
  teams : List String
  data : RawDoc
deriving DecidableEq

/-- Function `load_match_metadata` (lines 48–71): parse the date and store the
normalized, sorted team tuple together with the raw document.  (The
enclosing `try` only guards file I/O and JSON decoding, which are external.) -/
def load_match_metadata (data : RawDoc) : Meta :=
  { date := parse_date (data.date.getD "")
    teams := sortStrings ((rawTeams data).map normalizeStr)
    data := data }

/-- The loop body of the series grouping in `main` (lines 179–191): one
global current series; append when same teams and gap strictly under the
threshold, otherwise seal and restart. -/
def group_step (st : List (List Meta) × List Meta) (curr : Meta) :
    List (List Meta) × List Meta :=
  let prev := st.2.getLastD curr
  let same_teams := prev.teams = curr.teams
  let time_diff := gapMinutes prev.date curr.date
  if same_teams ∧ time_diff < SERIES_GAP_MINUTES then
    (st.1, st.2 ++ [curr])
  else
    (st.1 ++ [st.2], [curr])

/-- The series grouping of `main` (lines 176–192): seed the current series
with the first record, fold the loop body over the rest, and append the
final current series. -/
def groupSeries : List Meta → List (List Meta)
  | [] => []
  | first :: rest =>
    let st := rest.foldl group_step ([], [first])
    st.1 ++ [st.2]

end Wiki

namespace Ov

/-- One clan's entry in the `clan_stats` defaultdict of `calculate_stats`
(line 134). -/
structure ClanStat where
  series_played : Nat
  series_won : Nat
  maps_played : Nat
  maps_won : Nat
  maps_lost : Nat
deriving DecidableEq

/-- The defaultdict initial value of `clan_stats` (line 134). -/
def clanZero : ClanStat := ⟨0, 0, 0, 0, 0⟩

/-- Mutating access `clan_stats[k]`: mutation on the insertion-ordered dict, creating the
default entry on first access. -/
def updClan (k : String) (f : ClanStat → ClanStat) :
    List (String × ClanStat) → List (String × ClanStat)
  | [] => [(k, f clanZero)]
  | (k', v) :: rest => if k' = k then (k', f v) :: rest else (k', v) :: updClan k f rest

/-- Read access `clan_stats[k]`. -/
def clanOf (cs : List (String × ClanStat)) (k : String) : ClanStat :=
  (lookupA k cs).getD clanZero

/-- The map-win part of the per-map loop of `calculate_stats`
(lines 147–155): strictly greater score wins the map, a tie credits
neither side. -/
def mapWinsStep (acc : Nat × Nat) (game : Game) : Nat × Nat :=
  if game.score_t1 > game.score_t2 then (acc.1 + 1, acc.2)
  else if game.score_t2 > game.score_t1 then (acc.1, acc.2 + 1)
  else acc

/-- Counters `t1_maps_won` / `t2_maps_won` after the per-map loop of
`calculate_stats`. -/
def count_map_wins (maps : List Game) : Nat × Nat :=
  maps.foldl mapWinsStep (0, 0)

/-- The per-match body of `calculate_stats` (lines 140–173): update both
clans' map and series tallies; only a strictly greater map-win count
increments `series_won`. -/
def calc_step (cs : List (String × ClanStat)) (m : Match) : List (String × ClanStat) :=
  let w := count_map_wins m.maps
  let cs := updClan m.team1 (fun c =>
    { c with
      maps_played := c.maps_played + m.maps.length
      maps_won := c.maps_won + w.1
      maps_lost := c.maps_lost + w.2
      series_played := c.series_played + 1 }) cs
  let cs := updClan m.team2 (fun c =>
    { c with
      maps_played := c.maps_played + m.maps.length
      maps_won := c.maps_won + w.2
      maps_lost := c.maps_lost + w.1
      series_played := c.series_played + 1 }) cs
  if w.1 > w.2 then updClan m.team1 (fun c => { c with series_won := c.series_won + 1 }) cs
  else if w.2 > w.1 then updClan m.team2 (fun c => { c with series_won := c.series_won + 1 }) cs
  else cs

/-- The `clan_stats` result of `calculate_stats` (lines 130–175); the map
distribution and the two totals of the source are independent read-only
tallies of the same loop. -/
def calculate_stats (ms : List Match) : List (String × ClanStat) :=
  ms.foldl calc_step []

end Ov

namespace Wiki

/-- One entry of `matches_output` in `generate_wiki_for_series`
(lines 113–118). -/
structure MapLine where
  mapName : String
  s1 : Int
  s2 : Int
  win : String
deriving DecidableEq

/-- The per-map winner tag of `generate_wiki_for_series` (lines 105–111)
and of the final `|mapNwin=` field: `"1"`/`"2"` for a strictly greater
score, empty on a tie. -/
def map_win_tag (s1 s2 : Int) : String :=
  if s1 > s2 then "1" else if s2 > s1 then "2" else ""

/-- The per-map loop body of `generate_wiki_for_series` (lines 99–118):
append the map line and bump the strictly-greater side's win counter. -/
def series_step (t1_raw t2_raw : String) (acc : List MapLine × Nat × Nat) (m : Meta) :
    List MapLine × Nat × Nat :=
  let s1 := get_team_score m.data t1_raw
  let s2 := get_team_score m.data t2_raw
  if s1 > s2 then
    (acc.1 ++ [⟨m.data.mapName.getD "unknown", s1, s2, "1"⟩], acc.2.1 + 1, acc.2.2)
  else if s2 > s1 then
    (acc.1 ++ [⟨m.data.mapName.getD "unknown", s1, s2, "2"⟩], acc.2.1, acc.2.2 + 1)
  else
    (acc.1 ++ [⟨m.data.mapName.getD "unknown", s1, s2, ""⟩], acc.2.1, acc.2.2)

/-- Values `matches_output`, `t1_wins`, `t2_wins` of `generate_wiki_for_series`. -/
def series_results (t1_raw t2_raw : String) (series_matches : List Meta) :
    List MapLine × Nat × Nat :=
  series_matches.foldl (series_step t1_raw t2_raw) ([], 0, 0)

/-- The `|winner=` tag of `generate_wiki_for_series` (lines 120–122): only a
strictly greater map-win tally wins the series; a tie leaves it empty. -/
def series_winner_tag (t1_wins t2_wins : Nat) : String :=
  if t1_wins > t2_wins then "1" else if t2_wins > t1_wins then "2" else ""

end Wiki

namespace Stats

/- Embedding of `generate_stats_for_wiki.py`. -/

/-- Constant `ALL_TRACKED_ITEMS` (lines 20–27); RL and SG are deliberately absent
because they are treated as always available. -/
def ALL_TRACKED_ITEMS : List String :=
  ["lg", "gl", "sng", "ng", "ssg", "mh", "ra", "ya", "ga", "pent", "ring", "quad"]

/-- Lookup `QUAKE_COLORS.get(tc, "")` (lines 13–16, 88–89). -/
def quakeColor (tc : Int) : String :=
  (lookupA tc
    [((0 : Int), "#D3D3D3"), (1, "#8B4513"), (2, "#D8BFD8"), (3, "#008000"),
     (4, "#8B0000"), (12, "#FFFF00"), (13, "#0000FF")]).getD ""

/-- Function `safe_div` (lines 29–30): `n / d if d > 0 else 0`. -/
def safe_div (n d : ℚ) : ℚ := if 0 < d then n / d else 0

/-- The per-weapon block produced by `get_w` (lines 136–145): kills, hits,
pickups taken, pickups dropped, attacks, with every missing nested key
already defaulted to zero. -/
structure WeaponData where
  k : Int
  h : Int
  t : Int
  d : Int
  a : Int
deriving DecidableEq

/-- Result of `get_w` on a weapon key absent from the player's `weapons` dict. -/
def zeroW : WeaponData := ⟨0, 0, 0, 0, 0⟩

/-- Pointwise accumulation of a `get_w` block into a `db` weapon dict; the
cumulative dicts of `get_stats_structure` carry no `a` key, so attacks are
not accumulated. -/
def addW (acc x : WeaponData) : WeaponData := ⟨acc.k + x.k, acc.h + x.h, acc.t + x.t, acc.d + x.d, acc.a⟩

/-- An `items` entry with its two accepted key spellings
(`i_data.get("took", i_data.get("taken", 0))`, lines 182–184). -/
structure ItemData where
  took : Option Int
  taken : Option Int
deriving DecidableEq

/-- One player object of a stat document, with the fields `process_file`
reads.  Alias fallbacks on nested keys (`enemy-weapons`/`enemy_weapons`,
`taken-to-die`/`taken_to_die`) and the `.get(..., 0)` chains below the first
level are already resolved to their extracted numeric value. -/
structure Player where
  name : Option String
  topColor : Int
  statsFrags : Int
  statsDeaths : Int
  dmgGiven : Int
  dmgEnemyWeapons : Int
  dmgToDie : Int
  speedAvg : ℚ
  speedMax : ℚ
  weapons : List (String × WeaponData)
  xferRL : Int
  items : List (String × ItemData)

/-- Function `get_w(key)` (lines 136–145), given the pre-extracted weapon dict. -/
def getW (p : Player) (key : String) : WeaponData := (lookupA key p.weapons).getD zeroW

/-- Function `get_item_count(key)` (lines 182–184). -/
def getItemCount (p : Player) (key : String) : Int :=
  let i_data := (lookupA key p.items).getD ⟨none, none⟩
  i_data.took.getD (i_data.taken.getD 0)

/-- One player's entry in `players_db`, as laid out by
`get_stats_structure` (lines 40–71).  `opportunities` is a
`defaultdict(int)` over item keys. -/
structure PlayerStats where
  games : Nat
  opportunities : String → Nat
  team_color : String
  frags : Int
  deaths : Int
  dmg_given : Int
  dmg_enemy_weapons : Int
  dmg_to_die : Int
  speed_sum : ℚ
  speed_max_sum : ℚ
  rl : WeaponData
  rl_xfer : Int
  lg : WeaponData
  gl : WeaponData
  sng : WeaponData
  ng : WeaponData
  ssg : WeaponData
  acc_sum_lg : ℚ
  acc_sum_sg : ℚ
  acc_sum_eff : ℚ
  acc_count_lg : Nat
  acc_count_sg : Nat
  acc_count_eff : Nat
  items_q : Int
  items_p : Int
  items_r : Int
  items_ra : Int
  items_ya : Int
  items_ga : Int
  items_mh : Int

/-- Function `get_stats_structure()` plus the immediate `team_color` assignment
(lines 40–71 and 86–89). -/
def get_stats_structure (tc : Int) : PlayerStats :=
  { games := 0
    opportunities := fun _ => 0
    team_color := quakeColor tc
    frags := 0, deaths := 0, dmg_given := 0, dmg_enemy_weapons := 0, dmg_to_die := 0
    speed_sum := 0, speed_max_sum := 0
    rl := zeroW, rl_xfer := 0, lg := zeroW, gl := zeroW, sng := zeroW, ng := zeroW, ssg := zeroW
    acc_sum_lg := 0, acc_sum_sg := 0, acc_sum_eff := 0
    acc_count_lg := 0, acc_count_sg := 0, acc_count_eff := 0
    items_q := 0, items_p := 0, items_r := 0, items_ra := 0, items_ya := 0, items_ga := 0
    items_mh := 0 }

/-- Increment `db["opportunities"][item] += 1` on the `defaultdict(int)`. -/
def bumpOpp (opp : String → Nat) (item : String) : String → Nat :=
  fun k => if k = item then opp item + 1 else opp k

/-- The per-player update of `process_file` (lines 91–194), written as one
record whose fields transcribe the sequential `db[...] += ...` mutations;
every conditional mutation of the source touches a distinct field and its
condition reads only the player object and `available_items`, so the record
form is the exact effect of the statement sequence. -/
def updatePlayer (available_items : List String) (p : Player) (db : PlayerStats) : PlayerStats :=
  { games := db.games + 1
    -- lines 94–99: one opportunity per available item, RL always
    opportunities := bumpOpp (available_items.foldl bumpOpp db.opportunities) "rl"
    team_color := db.team_color
    -- lines 101–119
    frags := db.frags + p.statsFrags
    deaths := db.deaths + p.statsDeaths
    dmg_given := db.dmg_given + p.dmgGiven
    dmg_enemy_weapons := db.dmg_enemy_weapons + p.dmgEnemyWeapons
    dmg_to_die := db.dmg_to_die + p.dmgToDie
    -- lines 121–124
    speed_sum := db.speed_sum + p.speedAvg
    speed_max_sum := db.speed_max_sum + p.speedMax
    -- lines 126–131: efficiency only when engagements > 0
    acc_sum_eff :=
      if 0 < p.statsFrags + p.statsDeaths then
        db.acc_sum_eff + (p.statsFrags : ℚ) / ((p.statsFrags + p.statsDeaths : Int) : ℚ)
      else db.acc_sum_eff
    acc_count_eff :=
      if 0 < p.statsFrags + p.statsDeaths then db.acc_count_eff + 1 else db.acc_count_eff
    -- lines 147–155: RL always accumulates
    rl := addW db.rl (getW p "rl")
    rl_xfer := db.rl_xfer + p.xferRL
    -- lines 157–165: other weapons only when available
    lg := if available_items.contains "lg" then addW db.lg (getW p "lg") else db.lg
    gl := if available_items.contains "gl" then addW db.gl (getW p "gl") else db.gl
    sng := if available_items.contains "sng" then addW db.sng (getW p "sng") else db.sng
    ng := if available_items.contains "ng" then addW db.ng (getW p "ng") else db.ng
    ssg := if available_items.contains "ssg" then addW db.ssg (getW p "ssg") else db.ssg
    -- lines 167–172: LG accuracy gated by availability and attacks > 0
    acc_sum_lg :=
      if available_items.contains "lg" ∧ 0 < (getW p "lg").a then
        db.acc_sum_lg + ((getW p "lg").h : ℚ) / ((getW p "lg").a : ℚ)
      else db.acc_sum_lg
    acc_count_lg :=
      if available_items.contains "lg" ∧ 0 < (getW p "lg").a then
        db.acc_count_lg + 1
      else db.acc_count_lg
    -- lines 174–177: SG accuracy gated only by attacks > 0
    acc_sum_sg :=
      if 0 < (getW p "sg").a then
        db.acc_sum_sg + ((getW p "sg").h : ℚ) / ((getW p "sg").a : ℚ)
      else db.acc_sum_sg
    acc_count_sg :=
      if 0 < (getW p "sg").a then db.acc_count_sg + 1 else db.acc_count_sg
    -- lines 179–194: items gated by availability
    items_q := if available_items.contains "quad" then db.items_q + getItemCount p "q" else db.items_q
    items_p := if available_items.contains "pent" then db.items_p + getItemCount p "p" else db.items_p
    items_r := if available_items.contains "ring" then db.items_r + getItemCount p "r" else db.items_r
    items_mh := if available_items.contains "mh" then db.items_mh + getItemCount p "health_100" else db.items_mh
    items_ra := if available_items.contains "ra" then db.items_ra + getItemCount p "ra" else db.items_ra
    items_ya := if available_items.contains "ya" then db.items_ya + getItemCount p "ya" else db.items_ya
    items_ga := if available_items.contains "ga" then db.items_ga + getItemCount p "ga" else db.items_ga }

/-- The per-player step of `process_file` (lines 83–91): create the entry on
first sight (with its team color), then apply the accumulating update. -/
def process_player (available_items : List String) (dbm : String → Option PlayerStats)
    (p : Player) : String → Option PlayerStats :=
  let name := p.name.getD "Unknown"
  let cur :=
    match dbm name with
    | some s => s
    | none => get_stats_structure p.topColor
  fun k => if k = name then some (updatePlayer available_items p cur) else dbm k

/-- One stat document as read by `process_file`. -/
structure GameDoc where
  mapName : Option String
  players : Option (List Player)

/-- Lookup `maps_config.get(map_name, ALL_TRACKED_ITEMS)` with the lower-cased map
name (lines 78–79). -/
def availFor (maps_config : List (String × List String)) (g : GameDoc) : List String :=
  (lookupA (lowerStr (g.mapName.getD "")) maps_config).getD ALL_TRACKED_ITEMS

/-- Function `process_file` (lines 73–197): skip documents with no `players` key,
otherwise fold the per-player update over the player list. -/
def process_file (maps_config : List (String × List String))
    (dbm : String → Option PlayerStats) (g : GameDoc) : String → Option PlayerStats :=
  match g.players with
  | none => dbm
  | some ps => ps.foldl (process_player (availFor maps_config g)) dbm

/-- The whole-corpus loop of `main` (lines 316–324): fold `process_file`
over every document starting from the empty `players_db`. -/
def run_corpus (maps_config : List (String × List String)) (games : List GameDoc) :
    String → Option PlayerStats :=
  games.foldl (process_file maps_config) (fun _ => none)

/-- Value `rl_opp` of `generate_wiki_table` (line 247):
`opp["rl"] if opp["rl"] > 0 else g`. -/
def rl_opp (db : PlayerStats) : Nat :=
  if 0 < db.opportunities "rl" then db.opportunities "rl" else db.games

/-- The rendered LG accuracy value of `generate_wiki_table` (line 271):
`safe_div(db['acc_sums']['lg'], db['acc_counts']['lg'])`. -/
def lg_acc_val (db : PlayerStats) : ℚ := safe_div db.acc_sum_lg (db.acc_count_lg : ℚ)

/-- The rendered quad average of `generate_wiki_table` (line 263):
`safe_div(db["items"]["q"], opp["quad"])` (before display rounding). -/
def quad_avg (db : PlayerStats) : ℚ := safe_div (db.items_q : ℚ) ((db.opportunities "quad" : Nat) : ℚ)

end Stats

/-- A database predicate holding for every stored player line at one name. -/
def dbInvAt (P : Stats.PlayerStats → Prop) (nm : String)
    (dbm : String → Option Stats.PlayerStats) : Prop :=
  ∀ s, dbm nm = some s → P s

/-- Concrete demonstration player: 5 frags, 3 deaths, an LG game of 2 hits
out of 4 attacks, an SG game of 2 hits out of 4 attacks, two quads taken. -/
def demoPlayer : Stats.Player :=
  { name := some "demo"
    topColor := 4
    statsFrags := 5
    statsDeaths := 3
    dmgGiven := 1000
    dmgEnemyWeapons := 800
    dmgToDie := 70
    speedAvg := 320
    speedMax := 540
    weapons := [("lg", ⟨1, 2, 3, 1, 4⟩), ("sg", ⟨0, 2, 0, 0, 4⟩), ("rl", ⟨4, 5, 6, 2, 9⟩)]
    xferRL := 1
    items := [("q", ⟨some 2, none⟩), ("ya", ⟨none, some 3⟩)] }

/-- A players-present demonstration document on map `dm4`. -/
def demoGame : Stats.GameDoc := { mapName := some "dm4", players := some [demoPlayer] }

/-- The stored stat line after processing `demoGame` from an empty database
with an empty map configuration. -/
def demoVal : Stats.PlayerStats :=
  Stats.updatePlayer (Stats.availFor [] demoGame) demoPlayer
    (Stats.get_stats_structure demoPlayer.topColor)

/-- Map configuration for the quad-unavailable scenario: `dm2` offers only
the lightning gun. -/
def c8Cfg : List (String × List String) := [("dm2", ["lg"])]

/-- The demonstration player playing on `dm2`. -/
def c8Game : Stats.GameDoc := { mapName := some "dm2", players := some [demoPlayer] }

/-- The stored stat line after processing `c8Game` under `c8Cfg`. -/
def c8Val : Stats.PlayerStats :=
  Stats.updatePlayer (Stats.availFor c8Cfg c8Game) demoPlayer
    (Stats.get_stats_structure demoPlayer.topColor)

/-- Player with a zero-attempt LG game (no attacks at all). -/
def c5PlayerZero : Stats.Player :=
  { demoPlayer with weapons := [("lg", ⟨0, 0, 0, 0, 0⟩)] }

/-- Player with an LG game of 2 hits out of 4 attacks. -/
def c5PlayerHalf : Stats.Player :=
  { demoPlayer with weapons := [("lg", ⟨0, 2, 0, 0, 4⟩)] }

/-- First demonstration game for the ratio-average claim: 0 LG attacks. -/
def c5Game1 : Stats.GameDoc := { mapName := some "dm4", players := some [c5PlayerZero] }

/-- Second demonstration game for the ratio-average claim: 2 of 4 LG. -/
def c5Game2 : Stats.GameDoc := { mapName := some "dm4", players := some [c5PlayerHalf] }

/-- The stored stat line after the two ratio-demonstration games. -/
def c5Val : Stats.PlayerStats :=
  Stats.updatePlayer (Stats.availFor [] c5Game2) c5PlayerHalf
    (Stats.updatePlayer (Stats.availFor [] c5Game1) c5PlayerZero
      (Stats.get_stats_structure c5PlayerZero.topColor))

/-- A raw document with neither a `teams` nor a `players` key. -/
def noPlayersDoc : RawDoc :=
  { date := none, mapName := none, teams := none, players := none,
    server := none, hostname := none }

/-- A processed overview game whose two scores tie. -/
def c6TieGame : Ov.Game :=
  { date_obj := dtMin, team1 := "aa", team2 := "bb", server := "srv", mapName := "dm2",
    score_t1 := 10, score_t2 := 10, roster_t1 := [("x", 10)], roster_t2 := [("y", 10)],
    file := "f.json" }

/-- A one-map overview match whose only map ties. -/
def c6Match : Ov.Match :=
  { team1 := "aa", team2 := "bb", start_time := dtMin, last_game_time := dtMin,
    server := "srv", maps := [c6TieGame] }

/-- A loaded wiki record over a document that resolves every team score to
zero (no explicit scores and no players), hence ties any two teams. -/
def c6Meta : Wiki.Meta := { date := dtMin, teams := ["aa", "bb"], data := noPlayersDoc }

/-- A processed overview game of the fixed pair `("aa", "bb")` at time `d`. -/
def ovGameAt (d : DateTime) : Ov.Game :=
  { date_obj := d, team1 := "aa", team2 := "bb", server := "srv", mapName := "dm2",
    score_t1 := 100, score_t2 := 50, roster_t1 := [("x", 100)], roster_t2 := [("y", 50)],
    file := "g.json" }

/-- A processed overview game of the other pair `("cc", "dd")` at time `d`. -/
def ovGameAtCD (d : DateTime) : Ov.Game :=
  { ovGameAt d with team1 := "cc", team2 := "dd" }

/-- A loaded wiki record of the team pair `("aa", "bb")` at time `d`. -/
def wikiMetaAt (d : DateTime) : Wiki.Meta :=
  { date := d, teams := ["aa", "bb"], data := noPlayersDoc }

/-- A loaded wiki record of the team pair `("cc", "dd")` at time `d`. -/
def wikiMetaAtCD (d : DateTime) : Wiki.Meta :=
  { date := d, teams := ["cc", "dd"], data := noPlayersDoc }

/-- Spec-side description of the explicit-score branch: the score of the
first `teams` entry that is a dict whose normalized name matches the target
and that carries a score. -/
def wikiExplicitScore (doc : RawDoc) (target : String) : Option Int :=
  (doc.teams.getD []).findSome? (fun t =>
    match t with
    | .dict n sc => if normalizeStr (n.getD "") = target then sc else none
    | .str _ => none)

/-- Spec-side description of the fallback branch: the sum of root-level
`frags` over all players whose normalized team matches the target. -/
def wikiFragsSum (doc : RawDoc) (target : String) : Int :=
  (((doc.players.getD []).filter
      (fun p => decide (normalizeStr (p.team.getD "") = target))).map
    (fun p => p.frags.getD 0)).sum

/-- Whether an overview player scores for raw team name `t`: not a
spectator, and carrying exactly that raw team name. -/
def ovTeamFilter (t : String) (p : RawPlayer) : Bool :=
  !((["spec", "spectator", ""] : List String).contains (lowerStr (p.team.getD "Unknown")))
    && (p.team.getD "Unknown" == t)

/-- Spec-side description of the overview team score: present exactly when
some non-spectator player carries the raw team name, and then the sum of
those players' `stats.frags`. -/
def ovSpecScore (ps : List RawPlayer) (t : String) : Option Int :=
  let l := ps.filter (ovTeamFilter t)
  if l.isEmpty then none else some ((l.map (fun p => p.statsFrags.getD 0)).sum)

/-- A player sitting on team `spec`. -/
def allSpecPlayer (nm : String) : RawPlayer :=
  { name := some nm, team := some "spec", frags := some 3, statsFrags := some 3 }

/-- A document whose players are all spectators. -/
def allSpecDoc : RawDoc :=
  { date := some "1999-01-02 03:04:05", mapName := some "dm3", teams := none,
    players := some [allSpecPlayer "p1", allSpecPlayer "p2"], server := none, hostname := none }

/-- A document carrying an explicit team score (100 for team `aa`) that
disagrees with both the root-level frag sum (7) and the `stats.frags` sum
(5) of that team's players. -/
def c3Doc : RawDoc :=
  { date := none, mapName := some "dm6",
    teams := some [.dict (some "AA") (some 100), .dict (some "BB") (some 40)],
    players :=
      some [{ name := some "x", team := some "aa", frags := some 7, statsFrags := some 5 },
            { name := some "y", team := some "bb", frags := some 4, statsFrags := some 2 }],
    server := none, hostname := none }

lemma bumpOpp_apply (opp : String → Nat) (item k : String) :
    Stats.bumpOpp opp item k = if k = item then opp item + 1 else opp k := rfl

lemma foldl_bumpOpp_notMem (k : String) :
    ∀ (l : List String) (opp : String → Nat), k ∉ l → (l.foldl Stats.bumpOpp opp) k = opp k := by
  intro l
  induction l with
  | nil => intro opp _; rfl
  | cons x xs ih =>
    intro opp h
    rw [List.mem_cons, not_or] at h
    rw [List.foldl_cons, ih _ h.2, bumpOpp_apply, if_neg h.1]

lemma updatePlayer_opp_rl {avail : List String} (h : "rl" ∉ avail)
    (p : Stats.Player) (db : Stats.PlayerStats) :
    (Stats.updatePlayer avail p db).opportunities "rl" = db.opportunities "rl" + 1 := by
  show Stats.bumpOpp (avail.foldl Stats.bumpOpp db.opportunities) "rl" "rl" = _
  rw [bumpOpp_apply, if_pos rfl, foldl_bumpOpp_notMem _ _ _ h]

lemma updatePlayer_opp_other {avail : List String} {k : String} (hk : k ≠ "rl") (h : k ∉ avail)
    (p : Stats.Player) (db : Stats.PlayerStats) :
    (Stats.updatePlayer avail p db).opportunities k = db.opportunities k := by
  show Stats.bumpOpp (avail.foldl Stats.bumpOpp db.opportunities) "rl" k = _
  rw [bumpOpp_apply, if_neg hk, foldl_bumpOpp_notMem _ _ _ h]

lemma updatePlayer_items_q {avail : List String} (h : "quad" ∉ avail)
    (p : Stats.Player) (db : Stats.PlayerStats) :
    (Stats.updatePlayer avail p db).items_q = db.items_q := by
  show (if avail.contains "quad" then _ else db.items_q) = db.items_q
  rw [if_neg]
  simpa using h

/-- Per-name invariant preservation through one `process_player` step. -/
lemma process_player_inv (P : Stats.PlayerStats → Prop) (nm : String)
    (avail : List String) (dbm : String → Option Stats.PlayerStats) (p : Stats.Player)
    (hp : p.name.getD "Unknown" = nm →
      (∀ s, P s → P (Stats.updatePlayer avail p s)) ∧
      P (Stats.updatePlayer avail p (Stats.get_stats_structure p.topColor)))
    (hdb : dbInvAt P nm dbm) : dbInvAt P nm (Stats.process_player avail dbm p) := by
  intro s hs
  unfold Stats.process_player at hs
  by_cases hk : nm = p.name.getD "Unknown"
  · rw [if_pos hk] at hs
    obtain ⟨hupd, hnew⟩ := hp hk.symm
    cases hget : dbm (p.name.getD "Unknown") with
    | none =>
      rw [hget] at hs
      cases hs
      exact hnew
    | some s0 =>
      rw [hget] at hs
      cases hs
      exact hupd s0 (hdb s0 (hk ▸ hget))
  · rw [if_neg hk] at hs
    exact hdb s hs

/-- Per-name invariant preservation through a whole player list. -/
lemma foldl_process_player_inv (P : Stats.PlayerStats → Prop) (nm : String)
    (avail : List String) :
    ∀ (ps : List Stats.Player) (dbm : String → Option Stats.PlayerStats),
      (∀ p ∈ ps, p.name.getD "Unknown" = nm →
        (∀ s, P s → P (Stats.updatePlayer avail p s)) ∧
        P (Stats.updatePlayer avail p (Stats.get_stats_structure p.topColor))) →
      dbInvAt P nm dbm → dbInvAt P nm (ps.foldl (Stats.process_player avail) dbm) := by
  intro ps
  induction ps with
  | nil => intro dbm _ hdb; exact hdb
  | cons p ps ih =>
    intro dbm hps hdb
    rw [List.foldl_cons]
    exact ih _ (fun q hq => hps q (List.mem_cons_of_mem _ hq))
      (process_player_inv P nm avail dbm p (hps p (List.mem_cons_self _ _)) hdb)

/-- Per-name invariant preservation through one document. -/
lemma process_file_inv (P : Stats.PlayerStats → Prop) (nm : String)
    (cfg : List (String × List String)) (g : Stats.GameDoc)
    (dbm : String → Option Stats.PlayerStats)
    (hg : ∀ p ∈ g.players.getD [], p.name.getD "Unknown" = nm →
      (∀ s, P s → P (Stats.updatePlayer (Stats.availFor cfg g) p s)) ∧
      P (Stats.updatePlayer (Stats.availFor cfg g) p (Stats.get_stats_structure p.topColor)))
    (hdb : dbInvAt P nm dbm) : dbInvAt P nm (Stats.process_file cfg dbm g) := by
  unfold Stats.process_file
  cases hps : g.players with
  | none => exact hdb
  | some ps =>
    refine foldl_process_player_inv P nm _ ps dbm (fun p hp => ?_) hdb
    exact hg p (by rw [hps]; exact hp)

/-- Per-name invariant for the whole corpus run. -/
lemma run_corpus_inv (P : Stats.PlayerStats → Prop) (nm : String)
    (cfg : List (String × List String)) (games : List Stats.GameDoc)
    (H : ∀ g ∈ games, ∀ p ∈ g.players.getD [], p.name.getD "Unknown" = nm →
      (∀ s, P s → P (Stats.updatePlayer (Stats.availFor cfg g) p s)) ∧
      P (Stats.updatePlayer (Stats.availFor cfg g) p (Stats.get_stats_structure p.topColor))) :
    dbInvAt P nm (Stats.run_corpus cfg games) := by
  unfold Stats.run_corpus
  have main : ∀ (gs : List Stats.GameDoc) (dbm : String → Option Stats.PlayerStats),
      (∀ g ∈ gs, ∀ p ∈ g.players.getD [], p.name.getD "Unknown" = nm →
        (∀ s, P s → P (Stats.updatePlayer (Stats.availFor cfg g) p s)) ∧
        P (Stats.updatePlayer (Stats.availFor cfg g) p (Stats.get_stats_structure p.topColor))) →
      dbInvAt P nm dbm → dbInvAt P nm (gs.foldl (Stats.process_file cfg) dbm) := by
    intro gs
    induction gs with
    | nil => intro dbm _ hdb; exact hdb
    | cons g gs ih =>
      intro dbm hgs hdb
      rw [List.foldl_cons]
      exact ih _ (fun g' hg' => hgs g' (List.mem_cons_of_mem _ hg'))
        (process_file_inv P nm cfg g dbm (hgs g (List.mem_cons_self _ _)) hdb)
  exact main games _ H (fun s hs => by cases hs)

/-- If a key appears in no configuration entry, it is in the effective item
list of a game only if it is in `ALL_TRACKED_ITEMS`. -/
lemma availFor_notMem {k : String} (cfg : List (String × List String))
    (hcfg : ∀ x ∈ cfg, k ∉ x.2) (hdef : k ∉ Stats.ALL_TRACKED_ITEMS) (g : Stats.GameDoc) :
    k ∉ Stats.availFor cfg g := by
  unfold Stats.availFor
  cases hl : lookupA (lowerStr (g.mapName.getD "")) cfg with
  | none => exact hdef
  | some v =>
    have hv : ∃ x ∈ cfg, x.2 = v := by
      clear hcfg
      induction cfg with
      | nil => cases hl
      | cons x xs ih =>
        rw [lookupA] at hl
        by_cases hx : x.1 = lowerStr (g.mapName.getD "")
        · rw [if_pos hx] at hl
          exact ⟨x, List.mem_cons_self _ _, by cases hl; rfl⟩
        · rw [if_neg hx] at hl
          obtain ⟨y, hy, hyv⟩ := ih hl
          exact ⟨y, List.mem_cons_of_mem _ hy, hyv⟩
    obtain ⟨x, hx, hxv⟩ := hv
    exact hxv ▸ hcfg x hx

/-- Claim C9: after processing any corpus, every stored player line has its
rocket-launcher opportunity count equal to `gamesCounted` (both are bumped
exactly once per game the player appears in, since `"rl"` is not an item the
map configuration gates), the game count is positive, and therefore the
renderer's `rl_opp` fallback (`opp["rl"] if opp["rl"] > 0 else g`) never
substitutes a different value. -/
theorem C9_rl_opportunity_invariant (cfg : List (String × List String))
    (games : List Stats.GameDoc) (hcfg : ∀ x ∈ cfg, "rl" ∉ x.2)
    (nm : String) (s : Stats.PlayerStats) (hs : Stats.run_corpus cfg games nm = some s) :
    s.opportunities "rl" = s.games ∧ 1 ≤ s.games ∧ Stats.rl_opp s = s.opportunities "rl" := by
  have hrl : ∀ g : Stats.GameDoc, "rl" ∉ Stats.availFor cfg g :=
    availFor_notMem cfg hcfg (by decide)
  have base : s.opportunities "rl" = s.games ∧ 1 ≤ s.games := by
    refine run_corpus_inv (fun t => t.opportunities "rl" = t.games ∧ 1 ≤ t.games) nm cfg games
      (fun g _ p _ _ => ⟨fun t ht => ?_, ?_⟩) s hs
    · constructor
      · rw [updatePlayer_opp_rl (hrl g), ht.1]; rfl
      · exact le_trans ht.2 (Nat.le_succ _)
    · constructor
      · rw [updatePlayer_opp_rl (hrl g)]; rfl
      · exact Nat.le_refl 1
  refine ⟨base.1, base.2, ?_⟩
  unfold Stats.rl_opp
  rw [if_pos]
  rw [base.1]
  exact lt_of_lt_of_le Nat.zero_lt_one base.2

/-- Witness for C9 at a concrete one-game corpus. -/
theorem C9_witness :
    Stats.run_corpus [] [demoGame] "demo" = some demoVal ∧
    demoVal.opportunities "rl" = demoVal.games ∧ 1 ≤ demoVal.games ∧
    Stats.rl_opp demoVal = demoVal.opportunities "rl" :=
  ⟨rfl, C9_rl_opportunity_invariant [] [demoGame] (by simp) "demo" demoVal rfl⟩

/-- Claim C8: a zero denominator in the rendered averages yields the defined
value zero (`safe_div`), and for an item (here quad) unavailable on every
map a given player played, the accumulated numerator and opportunity count
are both zero, so that player's reported quad average is exactly zero. -/
theorem C8_zero_denominator_defaults (cfg : List (String × List String))
    (games : List Stats.GameDoc) (nm : String)
    (hquad : ∀ g ∈ games, (∃ p ∈ g.players.getD [], p.name.getD "Unknown" = nm) →
      "quad" ∉ Stats.availFor cfg g) :
    (∀ n : ℚ, Stats.safe_div n 0 = 0) ∧
    ∀ s, Stats.run_corpus cfg games nm = some s →
      s.items_q = 0 ∧ s.opportunities "quad" = 0 ∧ Stats.quad_avg s = 0 := by
  refine ⟨fun n => by simp [Stats.safe_div], fun s hs => ?_⟩
  have base : s.items_q = 0 ∧ s.opportunities "quad" = 0 := by
    refine run_corpus_inv (fun t => t.items_q = 0 ∧ t.opportunities "quad" = 0) nm cfg games
      (fun g hg p hp hnm => ?_) s hs
    have hq : "quad" ∉ Stats.availFor cfg g := hquad g hg ⟨p, hp, hnm⟩
    have hne : ("quad" : String) ≠ "rl" := by decide
    refine ⟨fun t ht => ⟨?_, ?_⟩, ⟨?_, ?_⟩⟩
    · rw [updatePlayer_items_q hq, ht.1]
    · rw [updatePlayer_opp_other hne hq, ht.2]
    · rw [updatePlayer_items_q hq]; rfl
    · rw [updatePlayer_opp_other hne hq]; rfl
  refine ⟨base.1, base.2, ?_⟩
  unfold Stats.quad_avg
  rw [base.1, base.2]
  simp [Stats.safe_div]

/-- Witness for C8 at a concrete corpus whose only map offers no quad. -/
theorem C8_witness :
    Stats.run_corpus c8Cfg [c8Game] "demo" = some c8Val ∧
    c8Val.items_q = 0 ∧ c8Val.opportunities "quad" = 0 ∧ Stats.quad_avg c8Val = 0 :=
  ⟨rfl,
    (C8_zero_denominator_defaults c8Cfg [c8Game] "demo"
      (by intro g hg _; simp only [List.mem_singleton] at hg; subst hg; decide)).2
      c8Val rfl⟩

/-- Claim C5: the efficiency and weapon-accuracy accumulators add the
per-game ratio and bump their count exactly when that game's denominator
(frags+deaths engagements, or weapon attacks) is strictly positive — a
zero-attempt game contributes to neither sum nor count — and consequently a
player with one 0-attack LG game and one 2-of-4 LG game renders an LG
accuracy of exactly 1/2, not 1/4. -/
theorem C5_ratio_accumulators :
    (∀ (avail : List String) (p : Stats.Player) (db : Stats.PlayerStats),
      ((Stats.updatePlayer avail p db).acc_sum_eff, (Stats.updatePlayer avail p db).acc_count_eff)
        = if 0 < p.statsFrags + p.statsDeaths then
            (db.acc_sum_eff + (p.statsFrags : ℚ) / ((p.statsFrags + p.statsDeaths : Int) : ℚ),
              db.acc_count_eff + 1)
          else (db.acc_sum_eff, db.acc_count_eff)) ∧
    (∀ (avail : List String) (p : Stats.Player) (db : Stats.PlayerStats),
      ((Stats.updatePlayer avail p db).acc_sum_lg, (Stats.updatePlayer avail p db).acc_count_lg)
        = if avail.contains "lg" ∧ 0 < (Stats.getW p "lg").a then
            (db.acc_sum_lg + ((Stats.getW p "lg").h : ℚ) / ((Stats.getW p "lg").a : ℚ),
              db.acc_count_lg + 1)
          else (db.acc_sum_lg, db.acc_count_lg)) ∧
    (∀ (avail : List String) (p : Stats.Player) (db : Stats.PlayerStats),
      ((Stats.updatePlayer avail p db).acc_sum_sg, (Stats.updatePlayer avail p db).acc_count_sg)
        = if 0 < (Stats.getW p "sg").a then
            (db.acc_sum_sg + ((Stats.getW p "sg").h : ℚ) / ((Stats.getW p "sg").a : ℚ),
              db.acc_count_sg + 1)
          else (db.acc_sum_sg, db.acc_count_sg)) ∧
    Stats.run_corpus [] [c5Game1, c5Game2] "demo" = some c5Val ∧
    Stats.lg_acc_val c5Val = 1 / 2 ∧ (1 / 2 : ℚ) ≠ 1 / 4 := by
  refine ⟨fun avail p db => ?_, fun avail p db => ?_, fun avail p db => ?_, rfl, ?_, by norm_num⟩
  · simp only [Stats.updatePlayer]
    split_ifs <;> rfl
  · simp only [Stats.updatePlayer]
    split_ifs <;> rfl
  · simp only [Stats.updatePlayer]
    split_ifs <;> rfl
  · show Stats.safe_div c5Val.acc_sum_lg (c5Val.acc_count_lg : ℚ) = 1 / 2
    have h1 : c5Val.acc_sum_lg = 0 + (2 : ℚ) / 4 := by
      simp [c5Val, Stats.updatePlayer, Stats.getW, Stats.get_stats_structure, Stats.availFor,
        Stats.ALL_TRACKED_ITEMS, lookupA, c5PlayerZero, c5PlayerHalf, demoPlayer]
    have h2 : c5Val.acc_count_lg = 1 := by
      simp [c5Val, Stats.updatePlayer, Stats.getW, Stats.get_stats_structure, Stats.availFor,
        Stats.ALL_TRACKED_ITEMS, lookupA, c5PlayerZero, c5PlayerHalf, demoPlayer]
    rw [h1, h2, Stats.safe_div]
    norm_num

/-- Claim C10: the shotgun accuracy accumulator is bumped in every game with
positive shotgun attacks regardless of the map's available-items list
(shotgun is not a tracked item), while the lightning-gun accuracy
accumulator is additionally gated on `"lg"` being available on that map. -/
theorem C10_sg_ungated_lg_gated :
    ("sg" ∉ Stats.ALL_TRACKED_ITEMS ∧ "lg" ∈ Stats.ALL_TRACKED_ITEMS) ∧
    (∀ (avail : List String) (p : Stats.Player) (db : Stats.PlayerStats),
      (Stats.updatePlayer avail p db).acc_count_sg
        = if 0 < (Stats.getW p "sg").a then db.acc_count_sg + 1 else db.acc_count_sg) ∧
    (∀ (avail : List String) (p : Stats.Player) (db : Stats.PlayerStats),
      (Stats.updatePlayer avail p db).acc_count_lg
        = if avail.contains "lg" ∧ 0 < (Stats.getW p "lg").a then
            db.acc_count_lg + 1
          else db.acc_count_lg) := by
  exact ⟨by decide, fun avail p db => rfl, fun avail p db => rfl⟩

lemma clanOf_updClan (k : String) (f : Ov.ClanStat → Ov.ClanStat)
    (cs : List (String × Ov.ClanStat)) (c : String) :
    Ov.clanOf (Ov.updClan k f cs) c = if c = k then f (Ov.clanOf cs k) else Ov.clanOf cs c := by
  induction cs with
  | nil =>
    by_cases h : c = k
    · subst h
      simp [Ov.updClan, Ov.clanOf, lookupA]
    · simp [Ov.updClan, Ov.clanOf, lookupA, h, Ne.symm h]
  | cons x xs ih =>
    obtain ⟨k', v⟩ := x
    by_cases hk : k' = k
    · subst hk
      by_cases hc : c = k'
      · subst hc
        simp [Ov.updClan, Ov.clanOf, lookupA]
      · simp [Ov.updClan, Ov.clanOf, lookupA, hc, Ne.symm hc]
    · by_cases hkc : k' = c
      · subst hkc
        simp [Ov.updClan, Ov.clanOf, lookupA, hk]
      · simp only [Ov.updClan, if_neg hk, Ov.clanOf, lookupA, if_neg hkc]
        simpa only [Ov.clanOf] using ih

/-- Claim C6: a tied map credits neither side's map-win tally and carries an
empty map-winner tag, and a tied map-win tally yields an empty series
winner — in both the overview aggregation and the wiki series rendering,
only strictly greater values win. -/
theorem C6_tie_semantics :
    (∀ (acc : Nat × Nat) (g : Ov.Game), g.score_t1 = g.score_t2 →
      Ov.mapWinsStep acc g = acc) ∧
    (∀ s : Int, Wiki.map_win_tag s s = "") ∧
    (∀ w : Nat, Wiki.series_winner_tag w w = "") ∧
    (∀ (t1 t2 : String) (acc : List Wiki.MapLine × Nat × Nat) (m : Wiki.Meta),
      Wiki.get_team_score m.data t1 = Wiki.get_team_score m.data t2 →
      (Wiki.series_step t1 t2 acc m).2 = acc.2 ∧
      (Wiki.series_step t1 t2 acc m).1 =
        acc.1 ++ [⟨m.data.mapName.getD "unknown", Wiki.get_team_score m.data t1,
          Wiki.get_team_score m.data t2, ""⟩]) ∧
    (∀ (cs : List (String × Ov.ClanStat)) (m : Ov.Match),
      (Ov.count_map_wins m.maps).1 = (Ov.count_map_wins m.maps).2 →
      ∀ c, (Ov.clanOf (Ov.calc_step cs m) c).series_won = (Ov.clanOf cs c).series_won) := by
  refine ⟨fun acc g h => ?_, fun s => ?_, fun w => ?_, fun t1 t2 acc m h => ?_,
    fun cs m h c => ?_⟩
  · simp [Ov.mapWinsStep, h]
  · simp [Wiki.map_win_tag]
  · simp [Wiki.series_winner_tag]
  · constructor <;> simp [Wiki.series_step, h]
  · simp only [Ov.calc_step]
    rw [if_neg (by rw [h]; exact lt_irrefl _), if_neg (by rw [h.symm]; exact lt_irrefl _)]
    simp only [clanOf_updClan]
    split_ifs <;> simp_all

/-- Witness for C6 at concrete tied inputs. -/
theorem C6_witness :
    Ov.mapWinsStep (3, 4) c6TieGame = (3, 4) ∧
    Wiki.map_win_tag 7 7 = "" ∧
    Wiki.series_winner_tag 2 2 = "" ∧
    (Wiki.series_step "aa" "bb" ([], 1, 1) c6Meta).2 = (1, 1) ∧
    (Ov.clanOf (Ov.calc_step [] c6Match) "aa").series_won = (Ov.clanOf [] "aa").series_won :=
  ⟨C6_tie_semantics.1 (3, 4) c6TieGame rfl,
    C6_tie_semantics.2.1 7,
    C6_tie_semantics.2.2.1 2,
    (C6_tie_semantics.2.2.2.1 "aa" "bb" ([], 1, 1) c6Meta rfl).1,
    C6_tie_semantics.2.2.2.2 [] c6Match rfl "aa"⟩

lemma insertLe_length {A : Type} (lt : A → A → Bool) (x : A) :
    ∀ l : List A, (insertLe lt x l).length = l.length + 1 := by
  intro l
  induction l with
  | nil => rfl
  | cons y ys ih =>
    unfold insertLe
    by_cases h : lt x y
    · simp [h]
    · simp [h, ih]

lemma sortStable_length {A : Type} (lt : A → A → Bool) (l : List A) :
    (sortStable lt l).length = l.length := by
  unfold sortStable
  have main : ∀ (l acc : List A),
      (l.foldl (fun acc x => insertLe lt x acc) acc).length = acc.length + l.length := by
    intro l
    induction l with
    | nil => intro acc; simp
    | cons x xs ih =>
      intro acc
      rw [List.foldl_cons, ih, insertLe_length, List.length_cons]
      omega
  rw [main]
  simp

lemma lookupA_updateA_ne {K V : Type} [DecidableEq K] {k key : K} (h : k ≠ key) (v : V) :
    ∀ l : List (K × V), lookupA k (updateA key v l) = lookupA k l := by
  intro l
  induction l with
  | nil =>
    show lookupA k [(key, v)] = none
    simp [lookupA, Ne.symm h]
  | cons x xs ih =>
    obtain ⟨k', v'⟩ := x
    by_cases hk : k' = key
    · subst hk
      simp [updateA, lookupA, Ne.symm h]
    · simp only [updateA, if_neg hk, lookupA]
      by_cases hc : k' = k
      · simp [hc]
      · simp [hc, ih]

/-- Claim C1 counterexample: two games of the same pair exactly 90 minutes
apart.  The claim places them in separate series; `group_into_matches`
(whose seal condition is `gap > threshold`, not `gap ≥ threshold`) merges
them into one. -/
theorem C1_counterexample :
    gapMinutes ⟨1, 1, 1, 0, 0, 0⟩ ⟨1, 1, 1, 1, 30, 0⟩ = Ov.SERIES_GAP_THRESHOLD_MINUTES ∧
    (Ov.group_into_matches [ovGameAt ⟨1, 1, 1, 0, 0, 0⟩, ovGameAt ⟨1, 1, 1, 1, 30, 0⟩]).map
        Ov.Match.maps
      = [[ovGameAt ⟨1, 1, 1, 0, 0, 0⟩, ovGameAt ⟨1, 1, 1, 1, 30, 0⟩]] := by
  have hg : gapMinutes ⟨1, 1, 1, 0, 0, 0⟩ ⟨1, 1, 1, 1, 30, 0⟩ = 90 := by
    norm_num [gapMinutes, toSeconds, daysBeforeYear, daysBeforeMonth, daysInMonth, isLeapYear]
  refine ⟨hg, ?_⟩
  have hcond : ¬ gapMinutes ⟨1, 1, 1, 0, 0, 0⟩ ⟨1, 1, 1, 1, 30, 0⟩ >
      Ov.SERIES_GAP_THRESHOLD_MINUTES := by
    rw [hg]; unfold Ov.SERIES_GAP_THRESHOLD_MINUTES; exact lt_irrefl _
  simp [Ov.group_into_matches, Ov.group_step, lookupA, updateA, Ov.create_new_match,
    ovGameAt, hcond, sortStable, insertLe]

/-- Claim C1 (amended): for two consecutive games of the same pair,
`generate_game_overview.py` merges exactly when the gap is less than **or
equal to** the threshold (it seals only on `gap > threshold`, so a gap of
exactly 90 minutes stays in one series), while `2createwikicode.py` merges
exactly when the gap is strictly less than the threshold (a gap of exactly
90 minutes starts a new series there). -/
theorem C1_threshold_rule (d1 d2 : DateTime) :
    ((Ov.group_into_matches [ovGameAt d1, ovGameAt d2]).length = 1 ↔
      gapMinutes d1 d2 ≤ Ov.SERIES_GAP_THRESHOLD_MINUTES) ∧
    ((Wiki.groupSeries [wikiMetaAt d1, wikiMetaAt d2]).length = 1 ↔
      gapMinutes d1 d2 < Wiki.SERIES_GAP_MINUTES) := by
  constructor
  · by_cases hgap : gapMinutes d1 d2 > Ov.SERIES_GAP_THRESHOLD_MINUTES
    · have hlen : (Ov.group_into_matches [ovGameAt d1, ovGameAt d2]).length = 2 := by
        simp only [Ov.group_into_matches, List.foldl_cons, List.foldl_nil]
        rw [sortStable_length]
        simp [Ov.group_step, lookupA, updateA, Ov.create_new_match, ovGameAt, hgap]
      rw [hlen]
      exact iff_of_false (by norm_num) (not_le.mpr hgap)
    · have hlen : (Ov.group_into_matches [ovGameAt d1, ovGameAt d2]).length = 1 := by
        simp only [Ov.group_into_matches, List.foldl_cons, List.foldl_nil]
        rw [sortStable_length]
        simp [Ov.group_step, lookupA, updateA, Ov.create_new_match, ovGameAt, hgap]
      rw [hlen]
      exact iff_of_true rfl (not_lt.mp hgap)
  · by_cases hgap : gapMinutes d1 d2 < Wiki.SERIES_GAP_MINUTES
    · have hlen : (Wiki.groupSeries [wikiMetaAt d1, wikiMetaAt d2]).length = 1 := by
        simp [Wiki.groupSeries, Wiki.group_step, wikiMetaAt, List.getLastD, hgap]
      rw [hlen]
      exact iff_of_true rfl hgap
    · have hlen : (Wiki.groupSeries [wikiMetaAt d1, wikiMetaAt d2]).length = 2 := by
        simp [Wiki.groupSeries, Wiki.group_step, wikiMetaAt, List.getLastD, hgap]
      rw [hlen]
      exact iff_of_false (by norm_num) hgap

/-- Claim C2 counterexample: a game of pair `cc/dd` arriving between two
within-threshold games of pair `aa/bb` (gaps of 10 minutes each).  The claim
says pair `aa/bb`'s active series is not closed; the `2createwikicode.py`
grouper, which keeps a single global current series, closes it and emits
three singleton series. -/
theorem C2_counterexample :
    gapMinutes ⟨1, 1, 1, 0, 0, 0⟩ ⟨1, 1, 1, 0, 20, 0⟩ < Wiki.SERIES_GAP_MINUTES ∧
    Wiki.groupSeries
        [wikiMetaAt ⟨1, 1, 1, 0, 0, 0⟩, wikiMetaAtCD ⟨1, 1, 1, 0, 10, 0⟩,
          wikiMetaAt ⟨1, 1, 1, 0, 20, 0⟩]
      = [[wikiMetaAt ⟨1, 1, 1, 0, 0, 0⟩], [wikiMetaAtCD ⟨1, 1, 1, 0, 10, 0⟩],
          [wikiMetaAt ⟨1, 1, 1, 0, 20, 0⟩]] := by
  constructor
  · norm_num [gapMinutes, toSeconds, daysBeforeYear, daysBeforeMonth, daysInMonth, isLeapYear,
      Wiki.SERIES_GAP_MINUTES]
  · simp [Wiki.groupSeries, Wiki.group_step, wikiMetaAt, wikiMetaAtCD, List.getLastD]

/-- Claim C2 (amended): `group_into_matches` in `generate_game_overview.py`
does keep one active series per team pair — a game of a different pair
leaves every other pair's active series untouched, so interleaved
within-threshold games of pair `aa/bb` end up in one series — whereas the
`2createwikicode.py` grouper keeps a single global current series (see the
counterexample). -/
theorem C2_per_pair_independence :
    (∀ (st : List ((String × String) × Ov.Match) × List Ov.Match) (g : Ov.Game)
      (k : String × String), (g.team1, g.team2) ≠ k →
      lookupA k (Ov.group_step st g).1 = lookupA k st.1) ∧
    (Ov.group_into_matches
        [ovGameAt ⟨1, 1, 1, 0, 0, 0⟩, ovGameAtCD ⟨1, 1, 1, 0, 10, 0⟩,
          ovGameAt ⟨1, 1, 1, 0, 20, 0⟩]).map Ov.Match.maps
      = [[ovGameAt ⟨1, 1, 1, 0, 0, 0⟩, ovGameAt ⟨1, 1, 1, 0, 20, 0⟩],
          [ovGameAtCD ⟨1, 1, 1, 0, 10, 0⟩]] := by
  constructor
  · intro st g k hk
    cases hl : lookupA (g.team1, g.team2) st.1 with
    | none =>
      simp only [Ov.group_step, hl]
      exact lookupA_updateA_ne (Ne.symm hk) _ st.1
    | some cur =>
      simp only [Ov.group_step, hl]
      by_cases hgap : gapMinutes cur.last_game_time g.date_obj >
          Ov.SERIES_GAP_THRESHOLD_MINUTES
      · rw [if_pos hgap]
        exact lookupA_updateA_ne (Ne.symm hk) _ st.1
      · rw [if_neg hgap]
        exact lookupA_updateA_ne (Ne.symm hk) _ st.1
  · have hcond : ¬ gapMinutes ⟨1, 1, 1, 0, 0, 0⟩ ⟨1, 1, 1, 0, 20, 0⟩ >
        Ov.SERIES_GAP_THRESHOLD_MINUTES := by
      norm_num [gapMinutes, toSeconds, daysBeforeYear, daysBeforeMonth, daysInMonth,
        isLeapYear, Ov.SERIES_GAP_THRESHOLD_MINUTES]
    simp [Ov.group_into_matches, Ov.group_step, lookupA, updateA, Ov.create_new_match,
      ovGameAt, ovGameAtCD, hcond, sortStable, insertLe, toSeconds, daysBeforeYear,
      daysBeforeMonth, daysInMonth, isLeapYear]

/-- Witness for C2's general part at a concrete state and game of another
pair. -/
theorem C2_witness :
    lookupA ("aa", "bb")
        (Ov.group_step ([(("aa", "bb"), c6Match)], []) (ovGameAtCD ⟨1, 1, 1, 0, 10, 0⟩)).1
      = lookupA ("aa", "bb") [(("aa", "bb"), c6Match)] :=
  C2_per_pair_independence.1 ([(("aa", "bb"), c6Match)], []) (ovGameAtCD ⟨1, 1, 1, 0, 10, 0⟩)
    ("aa", "bb") (by decide)

/-- Claim C7 counterexample: (a) `parse_date` in `2createwikicode.py` never
truncates after 19 characters, so a valid date followed by extra non-`+`
characters parses to `datetime.min` instead of the claimed 19-character
prefix; (b) a missing date in `generate_game_overview.py` defaults to the
epoch `1970-01-01 00:00:00`, not the minimum representable timestamp. -/
theorem C7_counterexample :
    parse_date "1999-01-02 03:04:05 UTC" = dtMin ∧
    dtMin ≠ ⟨1999, 1, 2, 3, 4, 5⟩ ∧
    ovParseDate none = ⟨1970, 1, 1, 0, 0, 0⟩ ∧
    (⟨1970, 1, 1, 0, 0, 0⟩ : DateTime) ≠ dtMin := by
  exact ⟨by decide, by decide, by decide, by decide⟩

/-- Claim C7 (amended): `2createwikicode.py` truncates only at the first
`+` — a parseable 19-character prefix followed by other trailing characters
fails and falls back to `datetime.min` — while `generate_game_overview.py`
truncates only to the first 19 characters and defaults a missing date to
the 1970 epoch rather than the minimum; in both scripts any parse failure
yields `datetime.min` (which sorts at or before every other timestamp) and
loading never fails. -/
theorem C7_date_parsing_rules :
    (∀ s : String, hasPlusSign s = false → 19 < s.length → parse_date s = dtMin) ∧
    parse_date "1999-01-02 03:04:05+01:00" = ⟨1999, 1, 2, 3, 4, 5⟩ ∧
    ovParseDate (some "1999-01-02 03:04:05 CEST") = ⟨1999, 1, 2, 3, 4, 5⟩ ∧
    ovParseDate (some "1999-01-02 03:04:05+01:00") = ⟨1999, 1, 2, 3, 4, 5⟩ ∧
    parse_date "garbage" = dtMin ∧
    ovParseDate (some "garbage") = dtMin ∧
    ovParseDate none = ⟨1970, 1, 1, 0, 0, 0⟩ ∧
    (∀ dt : DateTime, toSeconds dtMin ≤ toSeconds dt) := by
  refine ⟨fun s hplus hlen => ?_, by decide, by decide, by decide, by decide, by decide,
    by decide, fun dt => Nat.zero_le _⟩
  unfold parse_date
  simp only [hplus, Bool.false_eq_true, if_false]
  unfold parseDT
  rw [if_neg]
  · rfl
  · have hl : ¬ s.length = 19 := by omega
    exact fun h => hl h

/-- Witness for C7's general no-19-truncation rule at a concrete string. -/
theorem C7_witness : parse_date "1999-01-02 03:04:05.123" = dtMin :=
  C7_date_parsing_rules.1 "1999-01-02 03:04:05.123" (by decide) (by decide)

/-- Claim C4 counterexample: a record whose players are all on team `spec`.
The claim says such a record is excluded from the corpus and never reaches
grouping; `load_match_metadata` in `2createwikicode.py` performs no
spectator filtering and no two-team check, loads it with team tuple
`("spec",)`, and the grouping loop processes it as a series. -/
theorem C4_counterexample :
    Wiki.load_match_metadata allSpecDoc
      = { date := ⟨1999, 1, 2, 3, 4, 5⟩, teams := ["spec"], data := allSpecDoc } ∧
    Wiki.groupSeries [Wiki.load_match_metadata allSpecDoc]
      = [[Wiki.load_match_metadata allSpecDoc]] := by
  exact ⟨by decide, rfl⟩

/-- Claim C4 (amended): in `generate_game_overview.py` the exclusion holds —
players whose lower-cased team is `spec`, `spectator` or empty contribute to
neither scores nor rosters, and a record with other than exactly two scoring
team identities is dropped before grouping (in particular the all-spectator
record) — whereas `load_match_metadata` in `2createwikicode.py` applies no
such filter (see the counterexample). -/
theorem C4_spectator_exclusion :
    (∀ (p : RawPlayer)
      (acc : List (String × Int) × List (String × List (String × Int))),
      (["spec", "spectator", ""] : List String).contains (lowerStr (p.team.getD "Unknown"))
        = true → Ov.gts_step acc p = acc) ∧
    (∀ (doc : RawDoc) (f : String),
      (Ov.get_team_scores (doc.players.getD [])).1.length ≠ 2 → Ov.parseGame doc f = none) ∧
    Ov.parseGame allSpecDoc "f.json" = none := by
  refine ⟨fun p acc h => ?_, fun doc f h => ?_, by decide⟩
  · simp only [Ov.gts_step]
    rw [if_pos h]
  · simp only [Ov.parseGame, if_neg h]

/-- Witness for C4 at a concrete spectator player and the all-spectator
document. -/
theorem C4_witness :
    Ov.gts_step ([], []) (allSpecPlayer "p1") = ([], []) ∧
    Ov.parseGame allSpecDoc "demo.json" = none :=
  ⟨C4_spectator_exclusion.1 (allSpecPlayer "p1") ([], []) (by decide),
    C4_spectator_exclusion.2.1 allSpecDoc "demo.json" (by decide)⟩

lemma scanTeams_eq_findSome (target : String) :
    ∀ ts : List TeamEntry,
      Wiki.scanTeams target ts = ts.findSome? (fun t =>
        match t with
        | .dict n sc => if normalizeStr (n.getD "") = target then sc else none
        | .str _ => none) := by
  intro ts
  induction ts with
  | nil => rfl
  | cons t ts ih =>
    cases t with
    | str s => simp [Wiki.scanTeams, List.findSome?_cons, ih]
    | dict n sc =>
      by_cases h : normalizeStr (n.getD "") = target
      · cases sc with
        | none => simp [Wiki.scanTeams, List.findSome?_cons, h, ih]
        | some v => simp [Wiki.scanTeams, List.findSome?_cons, h]
      · simp [Wiki.scanTeams, List.findSome?_cons, h, ih]

lemma sumFragsLoop_spec (target : String) :
    ∀ (ps : List RawPlayer) (a : Int) (b : Bool),
      ps.foldl
        (fun acc p =>
          if normalizeStr (p.team.getD "") = target then (acc.1 + p.frags.getD 0, true) else acc)
        (a, b)
      = (a + ((ps.filter (fun p => decide (normalizeStr (p.team.getD "") = target))).map
            (fun p => p.frags.getD 0)).sum,
          b || ps.any (fun p => decide (normalizeStr (p.team.getD "") = target))) := by
  intro ps
  induction ps with
  | nil => intro a b; simp
  | cons p ps ih =>
    intro a b
    by_cases h : normalizeStr (p.team.getD "") = target
    · rw [List.foldl_cons, if_pos h, ih]
      simp [List.filter_cons, h, add_assoc]
    · rw [List.foldl_cons, if_neg h, ih]
      simp [List.filter_cons, h]

lemma fallback_eq_fragsSum (target : String) (ps : List RawPlayer) :
    (if (Wiki.sumFragsLoop target ps).2 then (Wiki.sumFragsLoop target ps).1 else 0)
      = ((ps.filter (fun p => decide (normalizeStr (p.team.getD "") = target))).map
          (fun p => p.frags.getD 0)).sum := by
  unfold Wiki.sumFragsLoop
  rw [sumFragsLoop_spec]
  simp only [Bool.false_or, zero_add]
  by_cases hany : ps.any (fun p => decide (normalizeStr (p.team.getD "") = target)) = true
  · rw [if_pos hany]
  · rw [if_neg hany]
    have hfil : ps.filter (fun p => decide (normalizeStr (p.team.getD "") = target)) = [] := by
      rw [List.filter_eq_nil_iff]
      intro a ha hpa
      exact hany (List.any_eq_true.mpr ⟨a, ha, hpa⟩)
    rw [hfil]
    rfl

lemma lookupA_addA (k t : String) (v : Int) :
    ∀ l : List (String × Int),
      lookupA t (addA k v l)
        = if k = t then some ((lookupA t l).getD 0 + v) else lookupA t l := by
  intro l
  induction l with
  | nil =>
    by_cases h : k = t <;> simp [addA, lookupA, h]
  | cons x xs ih =>
    obtain ⟨k', v'⟩ := x
    by_cases hk : k' = k
    · subst hk
      by_cases ht : k' = t
      · subst ht
        simp [addA, lookupA]
      · simp [addA, lookupA, ht]
    · by_cases ht : k' = t
      · subst ht
        have hk2 : ¬ k = k' := fun h => hk h.symm
        simp [addA, lookupA, hk, hk2]
      · simp [addA, lookupA, hk, ht, ih]

lemma gts_loop (t : String) :
    ∀ (ps : List RawPlayer) (acc : List (String × Int) × List (String × List (String × Int))),
      lookupA t (ps.foldl Ov.gts_step acc).1
        = ps.foldl
            (fun (o : Option Int) p =>
              if ovTeamFilter t p then some (o.getD 0 + p.statsFrags.getD 0) else o)
            (lookupA t acc.1) := by
  intro ps
  induction ps with
  | nil => intro acc; rfl
  | cons p ps ih =>
    intro acc
    rw [List.foldl_cons, List.foldl_cons, ih]
    congr 1
    by_cases hexc :
        (["spec", "spectator", ""] : List String).contains (lowerStr (p.team.getD "Unknown"))
          = true
    · have hstep : Ov.gts_step acc p = acc := by
        simp only [Ov.gts_step]
        rw [if_pos hexc]
      have hf : ovTeamFilter t p = false := by
        unfold ovTeamFilter
        rw [hexc]
        rfl
      rw [hstep, hf]
      simp
    · have hstep : (Ov.gts_step acc p).1
          = addA (p.team.getD "Unknown") (p.statsFrags.getD 0) acc.1 := by
        simp only [Ov.gts_step]
        rw [if_neg hexc]
      rw [hstep, lookupA_addA]
      have hexc' :
          (["spec", "spectator", ""] : List String).contains (lowerStr (p.team.getD "Unknown"))
            = false := by
        exact Bool.not_eq_true _ ▸ hexc
      by_cases hteam : p.team.getD "Unknown" = t
      · have hft : ovTeamFilter t p = true := by
          unfold ovTeamFilter
          rw [hexc', hteam]
          simp
        rw [if_pos hteam, hft]
        simp
      · have hft : ovTeamFilter t p = false := by
          unfold ovTeamFilter
          rw [hexc']
          simp [beq_iff_eq, hteam]
        rw [if_neg hteam, hft]
        simp

lemma optFold_filter (t : String) :
    ∀ (ps : List RawPlayer) (o : Option Int),
      ps.foldl
          (fun (o : Option Int) p =>
            if ovTeamFilter t p then some (o.getD 0 + p.statsFrags.getD 0) else o) o
        = if (ps.filter (ovTeamFilter t)).isEmpty then o
          else some (o.getD 0
            + ((ps.filter (ovTeamFilter t)).map (fun p => p.statsFrags.getD 0)).sum) := by
  intro ps
  induction ps with
  | nil => intro o; simp
  | cons p ps ih =>
    intro o
    by_cases h : ovTeamFilter t p = true
    · rw [List.foldl_cons, if_pos h, ih]
      by_cases he : (ps.filter (ovTeamFilter t)).isEmpty = true
      · have hnil : ps.filter (ovTeamFilter t) = [] := by
          simpa [List.isEmpty_iff] using he
        simp [List.filter_cons, h, hnil]
      · simp [List.filter_cons, h, he, add_assoc]
    · have h' : ovTeamFilter t p = false := Bool.not_eq_true _ ▸ h
      rw [List.foldl_cons, if_neg h, ih]
      simp [List.filter_cons, h']

/-- Claim C3 counterexample: a document carrying an explicit score of 100
for team `aa` whose players sum to 5 `stats.frags`.  `2createwikicode.py`
honors the explicit score, but `generate_game_overview.py` resolves the
record's score for `aa` to the frag sum 5, ignoring the explicit field — so
the claimed explicit-first priority does not hold there. -/
theorem C3_counterexample :
    Wiki.get_team_score c3Doc "aa" = 100 ∧
    (Ov.parseGame c3Doc "g.json").map Ov.Game.score_t1 = some 5 ∧
    (5 : Int) ≠ 100 :=
  ⟨by decide, by decide, by decide⟩

/-- Claim C3 (amended): `get_team_score` in `2createwikicode.py` resolves a
team's score explicit-first — the first matching scored `teams` entry wins,
otherwise the sum of matching players' root-level `frags` — while
`generate_game_overview.py` ignores any explicit team score: its per-team
score is always the sum of `stats.frags` over the non-spectator players
carrying that raw team name. -/
theorem C3_score_resolution :
    (∀ (doc : RawDoc) (team_name : String),
      Wiki.get_team_score doc team_name
        = (wikiExplicitScore doc (normalizeStr team_name)).getD
            (wikiFragsSum doc (normalizeStr team_name))) ∧
    (∀ (ps : List RawPlayer) (t : String),
      lookupA t (Ov.get_team_scores ps).1 = ovSpecScore ps t) ∧
    (∀ (doc : RawDoc) (ts : Option (List TeamEntry)) (f : String),
      Ov.parseGame { doc with teams := ts } f = Ov.parseGame doc f) := by
  refine ⟨fun doc team_name => ?_, fun ps t => ?_, fun doc ts f => rfl⟩
  · unfold Wiki.get_team_score wikiExplicitScore wikiFragsSum
    cases hts : doc.teams with
    | none =>
      simp only [hts, Option.getD_none, List.findSome?_nil]
      exact fallback_eq_fragsSum (normalizeStr team_name) (doc.players.getD [])
    | some ts =>
      simp only [hts, Option.getD_some]
      rw [scanTeams_eq_findSome]
      cases hfind : ts.findSome? (fun t =>
          match t with
          | .dict n sc => if normalizeStr (n.getD "") = normalizeStr team_name then sc else none
          | .str _ => none) with
      | some v => simp [hfind]
      | none =>
        simp only [hfind, Option.getD_none]
        exact fallback_eq_fragsSum (normalizeStr team_name) (doc.players.getD [])
  · unfold Ov.get_team_scores
    rw [gts_loop, optFold_filter]
    unfold ovSpecScore
    by_cases he : (ps.filter (ovTeamFilter t)).isEmpty = true
    · simp [he, lookupA]
    · simp [he, lookupA]
